import Mathlib

/-!
Verification of the `blackscholes` formula engine (`src/blackscholes/base.py`)
against its natural-language specification.

The Python code is shallowly embedded over the real numbers: every float is a
real, every method is a Lean function of the instance's stored fields, and
every fallible float operation (division, `math.log`, `math.sqrt`) is embedded
as an `Except`-valued function mirroring the exception CPython raises.
-/

/-- Error kinds observable at the boundary of the engine.
`invalidParameterError` is the specification's name for the construction-time
failure (the source raises it through an `assert`); `zeroDivisionError` and
`valueError` are the CPython exceptions raised by float division by zero and
by `math.log` on a non-positive argument; `degenerateInputError` is the error
kind the specification's degenerate-input policy names — the source never
raises it, it exists here only so that statements can mention it. -/
inductive PyError where
  | invalidParameterError
  | zeroDivisionError
  | valueError
  | degenerateInputError
deriving DecidableEq

/-- CPython float division: raises `ZeroDivisionError` when the divisor is zero. -/
noncomputable def pydiv (a b : ℝ) : Except PyError ℝ :=
  if b = 0 then .error .zeroDivisionError else .ok (a / b)

/-- CPython `math.log`: raises `ValueError` (math domain error) on a
non-positive argument. -/
noncomputable def pylog (x : ℝ) : Except PyError ℝ :=
  if x ≤ 0 then .error .valueError else .ok (Real.log x)

/-- CPython `math.sqrt`: raises `ValueError` on a negative argument. -/
noncomputable def pysqrt (x : ℝ) : Except PyError ℝ :=
  if x < 0 then .error .valueError else .ok (Real.sqrt x)

theorem pyBind_ok {α β : Type} (a : α) (f : α → Except PyError β) :
    (Except.ok a >>= f) = f a := rfl

theorem pyBind_err {α β : Type} (e : PyError) (f : α → Except PyError β) :
    ((Except.error e : Except PyError α) >>= f) = Except.error e := rfl

theorem pyPure_def {α : Type} (a : α) : (pure a : Except PyError α) = Except.ok a := rfl

/-- The Gauss error function used by CPython's `math.erf`. -/
noncomputable def erf (x : ℝ) : ℝ :=
  (2 / Real.sqrt Real.pi) * ∫ t in (0:ℝ)..x, Real.exp (-t ^ 2)

namespace StandardNormalMixin

/-- PDF of the standard normal distribution (`StandardNormalMixin._pdf`). -/
noncomputable def _pdf (x : ℝ) : ℝ :=
  Real.exp (-(x ^ 2) / 2) / Real.sqrt (2 * Real.pi)

/-- CDF of the standard normal distribution (`StandardNormalMixin._cdf`). -/
noncomputable def _cdf (x : ℝ) : ℝ :=
  (1 + erf (x / Real.sqrt 2)) / 2

end StandardNormalMixin

/-- The fields stored by `BlackScholesBase.__init__`. -/
structure BSParams where
  S : ℝ
  K : ℝ
  T : ℝ
  r : ℝ
  sigma : ℝ
  q : ℝ

namespace BlackScholesBase

open StandardNormalMixin

/-- Source `BlackScholesBase.__init__`: asserts `param >= 0.0` for each of
S, K, T, sigma, q in that order (r is not checked), then stores the fields. -/
noncomputable def init (S K T r sigma q : ℝ) : Except PyError BSParams :=
  if S < 0 then .error .invalidParameterError
  else if K < 0 then .error .invalidParameterError
  else if T < 0 then .error .invalidParameterError
  else if sigma < 0 then .error .invalidParameterError
  else if q < 0 then .error .invalidParameterError
  else .ok ⟨S, K, T, r, sigma, q⟩

/-- Source `BlackScholesBase._d1`, read as a real-valued closed form. -/
noncomputable def _d1 (p : BSParams) : ℝ :=
  (1 / (p.sigma * Real.sqrt p.T)) *
    (Real.log (p.S / p.K) + (p.r - p.q + 0.5 * p.sigma ^ 2) * p.T)

/-- Source `BlackScholesBase._d2`, read as a real-valued closed form. -/
noncomputable def _d2 (p : BSParams) : ℝ :=
  _d1 p - p.sigma * Real.sqrt p.T

/-- Source `BlackScholesBase._d1` with CPython's fallible float semantics, in the
source's evaluation order: `sqrt(T)` and the division `1.0 / (sigma*sqrt(T))`
are evaluated before `log(S / K)`. -/
noncomputable def _d1E (p : BSParams) : Except PyError ℝ := do
  let sq ← pysqrt p.T
  let inv ← pydiv 1 (p.sigma * sq)
  let ratK ← pydiv p.S p.K
  let l ← pylog ratK
  pure (inv * (l + (p.r - p.q + 0.5 * p.sigma ^ 2) * p.T))

/-- Source `BlackScholesBase._d2` with CPython's fallible float semantics. -/
noncomputable def _d2E (p : BSParams) : Except PyError ℝ := do
  let d1 ← _d1E p
  let sq ← pysqrt p.T
  pure (d1 - p.sigma * sq)

/-- Source `BlackScholesBase.gamma` as a real-valued closed form. -/
noncomputable def gamma (p : BSParams) : ℝ :=
  Real.exp (-p.q * p.T) * _pdf (_d1 p) / (p.S * p.sigma * Real.sqrt p.T)

/-- Source `BlackScholesBase.dual_gamma` as a real-valued closed form. -/
noncomputable def dual_gamma (p : BSParams) : ℝ :=
  Real.exp (-p.r * p.T) * _pdf (_d2 p) / (p.K * p.sigma * Real.sqrt p.T)

/-- Source `BlackScholesBase.vega` as a real-valued closed form. -/
noncomputable def vega (p : BSParams) : ℝ :=
  p.S * _pdf (_d1 p) * Real.sqrt p.T

/-- Source `BlackScholesBase.lambda_greek`, with CPython's fallible division. The
`delta()` and `price()` it calls are abstract methods supplied by the Call/Put
subclasses, so the values they return enter as arguments. -/
noncomputable def lambda_greek (delta S price : ℝ) : Except PyError ℝ :=
  pydiv (delta * S) price

/-- Source `BlackScholesBase.vanna` as a real-valued closed form. -/
noncomputable def vanna (p : BSParams) : ℝ :=
  -_pdf (_d1 p) * _d2 p / p.sigma

/-- Source `BlackScholesBase.vomma` as a real-valued closed form. -/
noncomputable def vomma (p : BSParams) : ℝ :=
  vega p * _d1 p * _d2 p / p.sigma

/-- Source `BlackScholesBase.veta` as a real-valued closed form. -/
noncomputable def veta (p : BSParams) : ℝ :=
  -p.S * Real.exp (-p.q * p.T) * _pdf (_d1 p) * Real.sqrt p.T *
    (p.q + (p.r - p.q) * _d1 p / (p.sigma * Real.sqrt p.T) -
      (1 + _d1 p * _d2 p) / (2 * p.T))

/-- Source `BlackScholesBase.phi` as a real-valued closed form. -/
noncomputable def phi (p : BSParams) : ℝ :=
  Real.exp (-p.r * p.T) * (1 / p.K) *
    (1 / Real.sqrt (2 * Real.pi * p.sigma ^ 2 * p.T)) *
    Real.exp (-1 / (2 * p.sigma ^ 2 * p.T) *
      (Real.log (p.K / p.S) - ((p.r - p.q) - 0.5 * p.sigma ^ 2) * p.T) ^ 2)

/-- Source `BlackScholesBase.speed` as a real-valued closed form. -/
noncomputable def speed (p : BSParams) : ℝ :=
  -gamma p / p.S * (_d1 p / (p.sigma * Real.sqrt p.T) + 1)

/-- Source `BlackScholesBase.zomma` as a real-valued closed form. -/
noncomputable def zomma (p : BSParams) : ℝ :=
  gamma p * ((_d1 p * _d2 p - 1) / p.sigma)

/-- Source `BlackScholesBase.color` as a real-valued closed form. -/
noncomputable def color (p : BSParams) : ℝ :=
  -Real.exp (-p.q * p.T) * _pdf (_d1 p) /
      (2 * p.S * p.T * p.sigma * Real.sqrt p.T) *
    (2 * p.q * p.T + 1 +
      (2 * (p.r - p.q) * p.T - _d2 p * p.sigma * Real.sqrt p.T) /
          (p.sigma * Real.sqrt p.T) * _d1 p)

/-- Source `BlackScholesBase.ultima` as a real-valued closed form. -/
noncomputable def ultima (p : BSParams) : ℝ :=
  -vega p / p.sigma ^ 2 *
    (_d1 p * _d2 p * (1 - _d1 p * _d2 p) + _d1 p ^ 2 + _d2 p ^ 2)

/-- Source `BlackScholesBase.gamma` with CPython's fallible float semantics: the
numerator (which evaluates `_d1`) is computed before the divisor. -/
noncomputable def gammaE (p : BSParams) : Except PyError ℝ := do
  let d1 ← _d1E p
  let sq ← pysqrt p.T
  pydiv (Real.exp (-p.q * p.T) * _pdf d1) (p.S * p.sigma * sq)

/-- Source `BlackScholesBase.dual_gamma` with CPython's fallible float semantics. -/
noncomputable def dual_gammaE (p : BSParams) : Except PyError ℝ := do
  let d2 ← _d2E p
  let sq ← pysqrt p.T
  pydiv (Real.exp (-p.r * p.T) * _pdf d2) (p.K * p.sigma * sq)

/-- Source `BlackScholesBase.vega` with CPython's fallible float semantics. -/
noncomputable def vegaE (p : BSParams) : Except PyError ℝ := do
  let d1 ← _d1E p
  let sq ← pysqrt p.T
  pure (p.S * _pdf d1 * sq)

/-- Source `BlackScholesBase.vanna` with CPython's fallible float semantics. -/
noncomputable def vannaE (p : BSParams) : Except PyError ℝ := do
  let d1 ← _d1E p
  let d2 ← _d2E p
  pydiv (-_pdf d1 * d2) p.sigma

/-- Source `BlackScholesBase.vomma` with CPython's fallible float semantics. -/
noncomputable def vommaE (p : BSParams) : Except PyError ℝ := do
  let v ← vegaE p
  let d1 ← _d1E p
  let d2 ← _d2E p
  pydiv (v * d1 * d2) p.sigma

/-- Source `BlackScholesBase.veta` with CPython's fallible float semantics. -/
noncomputable def vetaE (p : BSParams) : Except PyError ℝ := do
  let d1 ← _d1E p
  let sq ← pysqrt p.T
  let d2 ← _d2E p
  let t1 ← pydiv ((p.r - p.q) * d1) (p.sigma * sq)
  let t2 ← pydiv (1 + d1 * d2) (2 * p.T)
  pure (-p.S * Real.exp (-p.q * p.T) * _pdf d1 * sq * (p.q + t1 - t2))

/-- Source `BlackScholesBase.speed` with CPython's fallible float semantics. -/
noncomputable def speedE (p : BSParams) : Except PyError ℝ := do
  let g ← gammaE p
  let a ← pydiv (-g) p.S
  let d1 ← _d1E p
  let sq ← pysqrt p.T
  let b ← pydiv d1 (p.sigma * sq)
  pure (a * (b + 1))

/-- Source `BlackScholesBase.zomma` with CPython's fallible float semantics. -/
noncomputable def zommaE (p : BSParams) : Except PyError ℝ := do
  let g ← gammaE p
  let d1 ← _d1E p
  let d2 ← _d2E p
  let c ← pydiv (d1 * d2 - 1) p.sigma
  pure (g * c)

/-- Source `BlackScholesBase.color` with CPython's fallible float semantics. -/
noncomputable def colorE (p : BSParams) : Except PyError ℝ := do
  let d1 ← _d1E p
  let sq ← pysqrt p.T
  let a ← pydiv (-Real.exp (-p.q * p.T) * _pdf d1)
    (2 * p.S * p.T * p.sigma * sq)
  let d2 ← _d2E p
  let b ← pydiv (2 * (p.r - p.q) * p.T - d2 * p.sigma * sq) (p.sigma * sq)
  pure (a * (2 * p.q * p.T + 1 + b * d1))

/-- Source `BlackScholesBase.ultima` with CPython's fallible float semantics. -/
noncomputable def ultimaE (p : BSParams) : Except PyError ℝ := do
  let d1 ← _d1E p
  let d2 ← _d2E p
  let v ← vegaE p
  let c ← pydiv (-v) (p.sigma ^ 2)
  pure (c * (d1 * d2 * (1 - d1 * d2) + d1 ^ 2 + d2 ^ 2))

end BlackScholesBase

/-- A Black-Scholes-Merton instance: the stored fields together with the
values returned by the abstract methods (`price`, `in_the_money`, `delta`,
`dual_delta`, `theta`, `epsilon`, `rho`, `charm`) that the Call/Put
subclasses implement outside `base.py`. -/
structure BSMInstance where
  p : BSParams
  price : ℝ
  in_the_money : ℝ
  delta : ℝ
  dual_delta : ℝ
  theta : ℝ
  epsilon : ℝ
  rho : ℝ
  charm : ℝ

namespace BlackScholesBase

/-- Source `BlackScholesBase.get_core_greeks` as the association list underlying the
returned dict, in the source's insertion order. -/
noncomputable def get_core_greeks (inst : BSMInstance) : List (String × ℝ) :=
  [("delta", inst.delta),
   ("gamma", gamma inst.p),
   ("vega", vega inst.p),
   ("theta", inst.theta),
   ("rho", inst.rho)]

/-- Source `BlackScholesBase.get_itm_proxies` as the association list underlying the
returned dict. -/
noncomputable def get_itm_proxies (inst : BSMInstance) : List (String × ℝ) :=
  [("naive_itm", inst.in_the_money),
   ("dual_delta", inst.dual_delta)]

/-- Source `BlackScholesBase.get_all_greeks` as the association list underlying the
returned dict, in the source's insertion order; measure values are the
real-valued closed forms. -/
noncomputable def get_all_greeks (inst : BSMInstance) : List (String × ℝ) :=
  [("delta", inst.delta),
   ("gamma", gamma inst.p),
   ("vega", vega inst.p),
   ("theta", inst.theta),
   ("epsilon", inst.epsilon),
   ("rho", inst.rho),
   ("lambda", inst.delta * inst.p.S / inst.price),
   ("vanna", vanna inst.p),
   ("charm", inst.charm),
   ("vomma", vomma inst.p),
   ("veta", veta inst.p),
   ("phi", phi inst.p),
   ("speed", speed inst.p),
   ("zomma", zomma inst.p),
   ("color", color inst.p),
   ("ultima", ultima inst.p),
   ("dual_delta", inst.dual_delta),
   ("dual_gamma", dual_gamma inst.p)]

/-- Method-call form of `gamma`: the returned value paired with the instance
fields after the call. The body of `gamma` in `base.py` only reads fields of
`self` and assigns none, so the post-state is the unchanged field record. -/
noncomputable def gammaCall (p : BSParams) : ℝ × BSParams := (gamma p, p)

/-- Method-call form of `dual_gamma` (reads fields only, assigns none). -/
noncomputable def dual_gammaCall (p : BSParams) : ℝ × BSParams := (dual_gamma p, p)

/-- Method-call form of `vega` (reads fields only, assigns none). -/
noncomputable def vegaCall (p : BSParams) : ℝ × BSParams := (vega p, p)

/-- Method-call form of `vanna` (reads fields only, assigns none). -/
noncomputable def vannaCall (p : BSParams) : ℝ × BSParams := (vanna p, p)

/-- Method-call form of `vomma` (reads fields only, assigns none). -/
noncomputable def vommaCall (p : BSParams) : ℝ × BSParams := (vomma p, p)

/-- Method-call form of `veta` (reads fields only, assigns none). -/
noncomputable def vetaCall (p : BSParams) : ℝ × BSParams := (veta p, p)

/-- Method-call form of `phi` (reads fields only, assigns none). -/
noncomputable def phiCall (p : BSParams) : ℝ × BSParams := (phi p, p)

/-- Method-call form of `speed` (reads fields only, assigns none). -/
noncomputable def speedCall (p : BSParams) : ℝ × BSParams := (speed p, p)

/-- Method-call form of `zomma` (reads fields only, assigns none). -/
noncomputable def zommaCall (p : BSParams) : ℝ × BSParams := (zomma p, p)

/-- Method-call form of `color` (reads fields only, assigns none). -/
noncomputable def colorCall (p : BSParams) : ℝ × BSParams := (color p, p)

/-- Method-call form of `ultima` (reads fields only, assigns none). -/
noncomputable def ultimaCall (p : BSParams) : ℝ × BSParams := (ultima p, p)

end BlackScholesBase

/-- The fields stored by `Black76Base.__init__`. -/
structure B76Params where
  F : ℝ
  K : ℝ
  T : ℝ
  r : ℝ
  sigma : ℝ

namespace Black76Base

open StandardNormalMixin

/-- Source `Black76Base.__init__`: asserts `param >= 0.0` for each of F, K, T, sigma
in that order (r is not checked), then stores the fields. -/
noncomputable def init (F K T r sigma : ℝ) : Except PyError B76Params :=
  if F < 0 then .error .invalidParameterError
  else if K < 0 then .error .invalidParameterError
  else if T < 0 then .error .invalidParameterError
  else if sigma < 0 then .error .invalidParameterError
  else .ok ⟨F, K, T, r, sigma⟩

/-- Source `Black76Base._d1` as a real-valued closed form. -/
noncomputable def _d1 (p : B76Params) : ℝ :=
  (Real.log (p.F / p.K) + 0.5 * p.sigma ^ 2 * p.T) / (p.sigma * Real.sqrt p.T)

/-- Source `Black76Base._d2` as a real-valued closed form. -/
noncomputable def _d2 (p : B76Params) : ℝ :=
  _d1 p - p.sigma * Real.sqrt p.T

/-- Source `Black76Base.gamma` as a real-valued closed form. -/
noncomputable def gamma (p : B76Params) : ℝ :=
  Real.exp (-p.r * p.T) * _pdf (_d1 p) / (p.F * p.sigma * Real.sqrt p.T)

/-- Source `Black76Base.vega` as a real-valued closed form. -/
noncomputable def vega (p : B76Params) : ℝ :=
  p.F * Real.exp (-p.r * p.T) * _pdf (_d1 p) * Real.sqrt p.T

/-- Source `Black76Base.vanna` as a real-valued closed form. -/
noncomputable def vanna (p : B76Params) : ℝ :=
  vega p / p.F * (1 - _d1 p / (p.sigma * Real.sqrt p.T))

/-- Source `Black76Base.vomma` as a real-valued closed form. -/
noncomputable def vomma (p : B76Params) : ℝ :=
  vega p * _d1 p * _d2 p / p.sigma

/-- Method-call form of `Black76Base.gamma` (reads fields only, assigns none). -/
noncomputable def gammaCall (p : B76Params) : ℝ × B76Params := (gamma p, p)

/-- Method-call form of `Black76Base.vega` (reads fields only, assigns none). -/
noncomputable def vegaCall (p : B76Params) : ℝ × B76Params := (vega p, p)

end Black76Base

/-- A Black-76 instance: the stored fields together with the values returned
by the abstract methods (`price`, `delta`, `theta`, `rho`) implemented by the
Call/Put subclasses outside `base.py`. -/
structure B76Instance where
  p : B76Params
  price : ℝ
  delta : ℝ
  theta : ℝ
  rho : ℝ

namespace Black76Base

/-- Source `Black76Base.get_core_greeks` as the association list underlying the
returned dict, in the source's insertion order. -/
noncomputable def get_core_greeks (inst : B76Instance) : List (String × ℝ) :=
  [("delta", inst.delta),
   ("gamma", gamma inst.p),
   ("vega", vega inst.p),
   ("theta", inst.theta),
   ("rho", inst.rho)]

/-- Source `Black76Base.get_all_greeks` as the association list underlying the
returned dict, in the source's insertion order. -/
noncomputable def get_all_greeks (inst : B76Instance) : List (String × ℝ) :=
  [("delta", inst.delta),
   ("gamma", gamma inst.p),
   ("vega", vega inst.p),
   ("theta", inst.theta),
   ("rho", inst.rho),
   ("vanna", vanna inst.p),
   ("vomma", vomma inst.p)]

end Black76Base

/-- The 18 measure names the specification enumerates for the spot family's
`get_all_greeks`. -/
def bsAllGreeksKeys : List String :=
  ["delta", "gamma", "vega", "theta", "epsilon", "rho", "lambda", "vanna",
   "charm", "vomma", "veta", "phi", "speed", "zomma", "color", "ultima",
   "dual_delta", "dual_gamma"]

/-- The measure names the specification enumerates for `get_core_greeks`. -/
def bsCoreGreeksKeys : List String :=
  ["delta", "gamma", "vega", "theta", "rho"]

/-- The measure names the specification enumerates for `get_itm_proxies`. -/
def bsItmProxiesKeys : List String :=
  ["naive_itm", "dual_delta"]

/-- The 7 measure names the specification enumerates for the futures family's
`get_all_greeks`. -/
def b76AllGreeksKeys : List String :=
  ["delta", "gamma", "vega", "theta", "rho", "vanna", "vomma"]

/-- Modelled from the spec: the straddle module (`blackscholes/straddle.py`)
is absent from `src/` — only its test is present. Spec section 4.4: a
composite instrument is an ordered list of (leg, weight) pairs and, for every
measure name M supported by the family, `composite.M() = sum of
weight_i * leg_i.M()`. A leg is represented by the map sending each measure
name to the value the leg's method of that name returns. -/
noncomputable def composite (legs : List ((String → ℝ) × ℝ)) : String → ℝ :=
  fun m => (legs.map (fun lw => lw.2 * lw.1 m)).sum

/-- Modelled from the spec: the long straddle combines one call leg and one
put leg, both with weight +1. -/
noncomputable def BlackScholesStraddleLong (call put : String → ℝ) : String → ℝ :=
  composite [(call, 1), (put, 1)]

/-- Modelled from the spec: the short straddle combines one call leg and one
put leg, both with weight −1. -/
noncomputable def BlackScholesStraddleShort (call put : String → ℝ) : String → ℝ :=
  composite [(call, -1), (put, -1)]

/-- True when a fallible computation raised an exception. -/
def isErr {α : Type} : Except PyError α → Bool
  | .error _ => true
  | .ok _ => false

theorem isErr_error {α : Type} (e : PyError) :
    isErr (Except.error e : Except PyError α) = true := rfl

theorem bsm_init_ok (S K T r sigma q : ℝ)
    (h1 : 0 ≤ S) (h2 : 0 ≤ K) (h3 : 0 ≤ T) (h4 : 0 ≤ sigma) (h5 : 0 ≤ q) :
    BlackScholesBase.init S K T r sigma q = Except.ok ⟨S, K, T, r, sigma, q⟩ := by
  unfold BlackScholesBase.init
  split_ifs with g1 g2 g3 g4 g5
  · linarith
  · linarith
  · linarith
  · linarith
  · linarith
  · rfl

theorem bsm_init_ok_inv (S K T r sigma q : ℝ) (p : BSParams)
    (h : BlackScholesBase.init S K T r sigma q = Except.ok p) :
    p = ⟨S, K, T, r, sigma, q⟩ := by
  unfold BlackScholesBase.init at h
  split_ifs at h
  cases h
  rfl

theorem b76_init_ok (F K T r sigma : ℝ)
    (h1 : 0 ≤ F) (h2 : 0 ≤ K) (h3 : 0 ≤ T) (h4 : 0 ≤ sigma) :
    Black76Base.init F K T r sigma = Except.ok ⟨F, K, T, r, sigma⟩ := by
  unfold Black76Base.init
  split_ifs with g1 g2 g3 g4
  · linarith
  · linarith
  · linarith
  · linarith
  · rfl

theorem bsm_d1E_ok (p : BSParams)
    (hS : 0 < p.S) (hK : 0 < p.K) (hsig : 0 < p.sigma) (hT : 0 < p.T) :
    BlackScholesBase._d1E p = Except.ok (BlackScholesBase._d1 p) := by
  have h1 : ¬ p.T < 0 := not_lt.2 hT.le
  have h2 : ¬ p.sigma * Real.sqrt p.T = 0 :=
    mul_ne_zero (ne_of_gt hsig) (ne_of_gt (Real.sqrt_pos.2 hT))
  have h3 : ¬ p.K = 0 := ne_of_gt hK
  have h4 : ¬ p.S / p.K ≤ 0 := not_le.2 (div_pos hS hK)
  simp only [BlackScholesBase._d1E, pysqrt, pydiv, pylog, if_neg h1, if_neg h2,
    if_neg h3, if_neg h4, pyBind_ok, pyPure_def]
  unfold BlackScholesBase._d1
  norm_num

theorem bsm_d2E_ok (p : BSParams)
    (hS : 0 < p.S) (hK : 0 < p.K) (hsig : 0 < p.sigma) (hT : 0 < p.T) :
    BlackScholesBase._d2E p = Except.ok (BlackScholesBase._d2 p) := by
  have h1 : ¬ p.T < 0 := not_lt.2 hT.le
  simp only [BlackScholesBase._d2E, bsm_d1E_ok p hS hK hsig hT, pysqrt,
    if_neg h1, pyBind_ok, pyPure_def]
  rfl

theorem bsm_d1E_degenerate (p : BSParams) (hT : 0 ≤ p.T)
    (h : p.sigma = 0 ∨ p.T = 0) :
    BlackScholesBase._d1E p = Except.error PyError.zeroDivisionError := by
  have h1 : ¬ p.T < 0 := not_lt.2 hT
  have h2 : p.sigma * Real.sqrt p.T = 0 := by
    rcases h with h | h
    · rw [h, zero_mul]
    · rw [h, Real.sqrt_zero, mul_zero]
  simp only [BlackScholesBase._d1E, pysqrt, pydiv, if_neg h1, if_pos h2,
    pyBind_ok, pyBind_err]

theorem bsm_d1E_zero_S_or_K (p : BSParams) (hS : 0 ≤ p.S) (hK : 0 ≤ p.K)
    (hsig : 0 < p.sigma) (hT : 0 < p.T) (h : p.S = 0 ∨ p.K = 0) :
    isErr (BlackScholesBase._d1E p) = true := by
  have h1 : ¬ p.T < 0 := not_lt.2 hT.le
  have h2 : ¬ p.sigma * Real.sqrt p.T = 0 :=
    mul_ne_zero (ne_of_gt hsig) (ne_of_gt (Real.sqrt_pos.2 hT))
  by_cases hK0 : p.K = 0
  · simp only [BlackScholesBase._d1E, pysqrt, pydiv, if_neg h1, if_neg h2,
      if_pos hK0, pyBind_ok, pyBind_err, isErr]
  · have hS0 : p.S = 0 := h.resolve_right hK0
    have h4 : p.S / p.K ≤ 0 := by rw [hS0, zero_div]
    simp only [BlackScholesBase._d1E, pysqrt, pydiv, pylog, if_neg h1,
      if_neg h2, if_neg hK0, if_pos h4, pyBind_ok, pyBind_err, isErr]

theorem bsm_measures_err (p : BSParams) (e : PyError)
    (h : BlackScholesBase._d1E p = Except.error e) :
    BlackScholesBase._d2E p = Except.error e ∧
    BlackScholesBase.gammaE p = Except.error e ∧
    BlackScholesBase.dual_gammaE p = Except.error e ∧
    BlackScholesBase.vegaE p = Except.error e ∧
    BlackScholesBase.vannaE p = Except.error e ∧
    BlackScholesBase.vommaE p = Except.error e ∧
    BlackScholesBase.vetaE p = Except.error e ∧
    BlackScholesBase.speedE p = Except.error e ∧
    BlackScholesBase.zommaE p = Except.error e ∧
    BlackScholesBase.colorE p = Except.error e ∧
    BlackScholesBase.ultimaE p = Except.error e := by
  have h2 : BlackScholesBase._d2E p = Except.error e := by
    simp only [BlackScholesBase._d2E, h, pyBind_err]
  have hg : BlackScholesBase.gammaE p = Except.error e := by
    simp only [BlackScholesBase.gammaE, h, pyBind_err]
  have hv : BlackScholesBase.vegaE p = Except.error e := by
    simp only [BlackScholesBase.vegaE, h, pyBind_err]
  refine ⟨h2, hg, ?_, hv, ?_, ?_, ?_, ?_, ?_, ?_, ?_⟩
  · simp only [BlackScholesBase.dual_gammaE, h2, pyBind_err]
  · simp only [BlackScholesBase.vannaE, h, pyBind_err]
  · simp only [BlackScholesBase.vommaE, hv, pyBind_err]
  · simp only [BlackScholesBase.vetaE, h, pyBind_err]
  · simp only [BlackScholesBase.speedE, hg, pyBind_err]
  · simp only [BlackScholesBase.zommaE, hg, pyBind_err]
  · simp only [BlackScholesBase.colorE, h, pyBind_err]
  · simp only [BlackScholesBase.ultimaE, h, pyBind_err]

/-- C7: for every real x, the standard normal kernel's pdf(x) equals
exp(-x^2/2) / sqrt(2*pi) and cdf(x) equals (1 + erf(x/sqrt(2))) / 2; both are
total functions of a real argument. -/
theorem c7_normal_kernel (x : ℝ) :
    StandardNormalMixin._pdf x = Real.exp (-(x ^ 2) / 2) / Real.sqrt (2 * Real.pi) ∧
    StandardNormalMixin._cdf x = (1 + erf (x / Real.sqrt 2)) / 2 :=
  ⟨rfl, rfl⟩

/-- C5: get_all_greeks has exactly the enumerated key set per family (18 keys
for the spot family, 7 for the futures family, in the enumerated order),
get_core_greeks is exactly {delta, gamma, vega, theta, rho},
get_itm_proxies is exactly {naive_itm, dual_delta}, and the core-Greeks key
set is a subset of the all-Greeks key set of each family. -/
theorem c5_aggregation_views (inst : BSMInstance) (inst76 : B76Instance) :
    (BlackScholesBase.get_all_greeks inst).map Prod.fst = bsAllGreeksKeys ∧
    (BlackScholesBase.get_core_greeks inst).map Prod.fst = bsCoreGreeksKeys ∧
    (BlackScholesBase.get_itm_proxies inst).map Prod.fst = bsItmProxiesKeys ∧
    (Black76Base.get_all_greeks inst76).map Prod.fst = b76AllGreeksKeys ∧
    (Black76Base.get_core_greeks inst76).map Prod.fst = bsCoreGreeksKeys ∧
    bsAllGreeksKeys.length = 18 ∧
    b76AllGreeksKeys.length = 7 ∧
    (bsCoreGreeksKeys.all fun k => bsAllGreeksKeys.contains k) = true ∧
    (bsCoreGreeksKeys.all fun k => b76AllGreeksKeys.contains k) = true :=
  ⟨rfl, rfl, rfl, rfl, rfl, rfl, rfl, by decide, by decide⟩

/-- C3: constructing a Black-Scholes-Merton instance with any of S, K, T,
sigma, q negative fails with the invalid-parameter error, independently for
each such parameter, while construction succeeds for every r (negative
included) when those are non-negative; the Black-76 constructor enforces the
same rule for F, K, T, sigma with r unconstrained. -/
theorem c3_construction_validation (S K T r sigma q F : ℝ) :
    ((S < 0 ∨ K < 0 ∨ T < 0 ∨ sigma < 0 ∨ q < 0) →
      BlackScholesBase.init S K T r sigma q =
        Except.error PyError.invalidParameterError) ∧
    (0 ≤ S → 0 ≤ K → 0 ≤ T → 0 ≤ sigma → 0 ≤ q →
      BlackScholesBase.init S K T r sigma q = Except.ok ⟨S, K, T, r, sigma, q⟩) ∧
    ((F < 0 ∨ K < 0 ∨ T < 0 ∨ sigma < 0) →
      Black76Base.init F K T r sigma =
        Except.error PyError.invalidParameterError) ∧
    (0 ≤ F → 0 ≤ K → 0 ≤ T → 0 ≤ sigma →
      Black76Base.init F K T r sigma = Except.ok ⟨F, K, T, r, sigma⟩) := by
  refine ⟨?_, bsm_init_ok S K T r sigma q, ?_, b76_init_ok F K T r sigma⟩
  · intro h
    unfold BlackScholesBase.init
    split_ifs with h1 h2 h3 h4 h5
    · rfl
    · rfl
    · rfl
    · rfl
    · rfl
    · rcases h with h | h | h | h | h <;> linarith
  · intro h
    unfold Black76Base.init
    split_ifs with h1 h2 h3 h4
    · rfl
    · rfl
    · rfl
    · rfl
    · rcases h with h | h | h | h <;> linarith

/-- C3 witness: a negative S fails, a negative r succeeds, for both families. -/
theorem c3_construction_validation_witness :
    BlackScholesBase.init (-1) 1 1 1 1 1 =
      Except.error PyError.invalidParameterError ∧
    BlackScholesBase.init 1 1 1 (-1) 1 1 = Except.ok ⟨1, 1, 1, -1, 1, 1⟩ ∧
    Black76Base.init (-1) 1 1 1 1 =
      Except.error PyError.invalidParameterError ∧
    Black76Base.init 1 1 1 (-1) 1 = Except.ok ⟨1, 1, 1, -1, 1⟩ :=
  ⟨(c3_construction_validation (-1) 1 1 1 1 1 1).1 (Or.inl (by norm_num)),
   (c3_construction_validation 1 1 1 (-1) 1 1 1).2.1
     zero_le_one zero_le_one zero_le_one zero_le_one zero_le_one,
   (c3_construction_validation 1 1 1 1 1 1 (-1)).2.2.1 (Or.inl (by norm_num)),
   (c3_construction_validation 1 1 1 (-1) 1 1 1).2.2.2
     zero_le_one zero_le_one zero_le_one zero_le_one⟩

/-- C8: lambda_greek returns delta * S / price whenever price is non-zero,
and raises the division-by-zero error when price is zero instead of returning
a float. -/
theorem c8_lambda_division (delta S price : ℝ) :
    (price ≠ 0 →
      BlackScholesBase.lambda_greek delta S price =
        Except.ok (delta * S / price)) ∧
    (price = 0 →
      BlackScholesBase.lambda_greek delta S price =
        Except.error PyError.zeroDivisionError) := by
  constructor
  · intro h
    simp [BlackScholesBase.lambda_greek, pydiv, h]
  · intro h
    simp [BlackScholesBase.lambda_greek, pydiv, h]

/-- C8 witness: lambda_greek at a non-zero and at a zero price. -/
theorem c8_lambda_division_witness :
    BlackScholesBase.lambda_greek 1 2 4 = Except.ok ((1 : ℝ) * 2 / 4) ∧
    BlackScholesBase.lambda_greek 1 2 0 =
      Except.error PyError.zeroDivisionError :=
  ⟨(c8_lambda_division 1 2 4).1 (by norm_num),
   (c8_lambda_division 1 2 0).2 rfl⟩

/-- C2: for legs sharing the same parameters and every measure name in the
shared capability set (all keys of get_all_greeks plus price), the long
straddle's value is exactly the sum of the call's and the put's values and
the short straddle's value is exactly the negation of that sum. -/
theorem c2_straddle_linearity (call put : String → ℝ) (m : String)
    (hm : m ∈ bsAllGreeksKeys ++ ["price"]) :
    BlackScholesStraddleLong call put m = call m + put m ∧
    BlackScholesStraddleShort call put m = -(call m + put m) := by
  constructor
  · simp only [BlackScholesStraddleLong, composite, List.map_cons, List.map_nil,
      List.sum_cons, List.sum_nil]
    ring
  · simp only [BlackScholesStraddleShort, composite, List.map_cons,
      List.map_nil, List.sum_cons, List.sum_nil]
    ring

/-- C2 witness: the straddle linearity at the measure name delta and constant
legs. -/
theorem c2_straddle_linearity_witness :
    ("delta" ∈ bsAllGreeksKeys ++ ["price"]) ∧
    BlackScholesStraddleLong (fun _ => 2) (fun _ => 3) "delta" = 2 + 3 ∧
    BlackScholesStraddleShort (fun _ => 2) (fun _ => 3) "delta" = -(2 + 3) := by
  have h : ("delta" : String) ∈ bsAllGreeksKeys ++ ["price"] := by decide
  have hc := c2_straddle_linearity (fun _ => (2 : ℝ)) (fun _ => (3 : ℝ)) "delta" h
  exact ⟨h, hc.1, hc.2⟩

/-- C1: for S, K, sigma, T > 0, d1 equals [ln(S/K) + (r - q + sigma^2/2)T] /
(sigma sqrt T), d2 equals d1 - sigma sqrt T, evaluating them under the
fallible float semantics returns exactly those values, and every shared Greek
reads those same d1/d2 values on the instance's stored parameters. -/
theorem c1_bsm_d1_d2_formula (p : BSParams)
    (hS : 0 < p.S) (hK : 0 < p.K) (hsig : 0 < p.sigma) (hT : 0 < p.T) :
    BlackScholesBase._d1 p =
      (Real.log (p.S / p.K) + (p.r - p.q + p.sigma ^ 2 / 2) * p.T) /
        (p.sigma * Real.sqrt p.T) ∧
    BlackScholesBase._d2 p = BlackScholesBase._d1 p - p.sigma * Real.sqrt p.T ∧
    BlackScholesBase._d1E p = Except.ok (BlackScholesBase._d1 p) ∧
    BlackScholesBase._d2E p = Except.ok (BlackScholesBase._d2 p) ∧
    BlackScholesBase.gamma p =
      Real.exp (-p.q * p.T) *
          StandardNormalMixin._pdf (BlackScholesBase._d1 p) /
        (p.S * p.sigma * Real.sqrt p.T) ∧
    BlackScholesBase.dual_gamma p =
      Real.exp (-p.r * p.T) *
          StandardNormalMixin._pdf (BlackScholesBase._d2 p) /
        (p.K * p.sigma * Real.sqrt p.T) ∧
    BlackScholesBase.vega p =
      p.S * StandardNormalMixin._pdf (BlackScholesBase._d1 p) * Real.sqrt p.T ∧
    BlackScholesBase.vanna p =
      -StandardNormalMixin._pdf (BlackScholesBase._d1 p) *
        BlackScholesBase._d2 p / p.sigma ∧
    BlackScholesBase.vomma p =
      BlackScholesBase.vega p * BlackScholesBase._d1 p *
        BlackScholesBase._d2 p / p.sigma ∧
    BlackScholesBase.speed p =
      -BlackScholesBase.gamma p / p.S *
        (BlackScholesBase._d1 p / (p.sigma * Real.sqrt p.T) + 1) ∧
    BlackScholesBase.zomma p =
      BlackScholesBase.gamma p *
        ((BlackScholesBase._d1 p * BlackScholesBase._d2 p - 1) / p.sigma) ∧
    BlackScholesBase.ultima p =
      -BlackScholesBase.vega p / p.sigma ^ 2 *
        (BlackScholesBase._d1 p * BlackScholesBase._d2 p *
            (1 - BlackScholesBase._d1 p * BlackScholesBase._d2 p) +
          BlackScholesBase._d1 p ^ 2 + BlackScholesBase._d2 p ^ 2) := by
  refine ⟨?_, rfl, bsm_d1E_ok p hS hK hsig hT, bsm_d2E_ok p hS hK hsig hT,
    rfl, rfl, rfl, rfl, rfl, rfl, rfl, rfl⟩
  unfold BlackScholesBase._d1
  ring

/-- C1 witness: the d1 formula evaluated at S = K = sigma = T = 1,
r = q = 0. -/
theorem c1_bsm_d1_d2_formula_witness :
    (0 : ℝ) < 1 ∧
    BlackScholesBase._d1 ⟨1, 1, 1, 0, 1, 0⟩ =
      (Real.log ((1 : ℝ) / 1) + ((0 : ℝ) - 0 + 1 ^ 2 / 2) * 1) /
        (1 * Real.sqrt 1) :=
  ⟨one_pos,
   (c1_bsm_d1_d2_formula ⟨1, 1, 1, 0, 1, 0⟩ one_pos one_pos one_pos one_pos).1⟩

/-- C6: for F, K, sigma, T > 0 in the Black-76 family, d1 equals
[ln(F/K) + sigma^2 T/2] / (sigma sqrt T) with no dividend term, d2 equals
d1 - sigma sqrt T, and vega equals e^(-rT) F pdf(d1) sqrt T, which is
e^(-rT) times the spot-family vega evaluated at S = F on parameters whose
spot d1 coincides with the Black-76 d1. -/
theorem c6_b76_d1_d2_vega (p : B76Params)
    (hF : 0 < p.F) (hK : 0 < p.K) (hsig : 0 < p.sigma) (hT : 0 < p.T) :
    Black76Base._d1 p =
      (Real.log (p.F / p.K) + p.sigma ^ 2 * p.T / 2) /
        (p.sigma * Real.sqrt p.T) ∧
    Black76Base._d2 p = Black76Base._d1 p - p.sigma * Real.sqrt p.T ∧
    Black76Base.vega p =
      Real.exp (-p.r * p.T) *
        (p.F * StandardNormalMixin._pdf (Black76Base._d1 p) *
          Real.sqrt p.T) ∧
    BlackScholesBase._d1 ⟨p.F, p.K, p.T, p.r, p.sigma, p.r⟩ =
      Black76Base._d1 p ∧
    Black76Base.vega p =
      Real.exp (-p.r * p.T) *
        BlackScholesBase.vega ⟨p.F, p.K, p.T, p.r, p.sigma, p.r⟩ := by
  have hd : BlackScholesBase._d1 ⟨p.F, p.K, p.T, p.r, p.sigma, p.r⟩ =
      Black76Base._d1 p := by
    dsimp only [BlackScholesBase._d1, Black76Base._d1]
    ring
  refine ⟨?_, rfl, ?_, hd, ?_⟩
  · unfold Black76Base._d1
    ring
  · unfold Black76Base.vega
    ring
  · dsimp only [Black76Base.vega, BlackScholesBase.vega]
    rw [hd]
    ring

/-- C6 witness: the Black-76 d1 formula evaluated at F = K = sigma = T = 1,
r = 0. -/
theorem c6_b76_d1_d2_vega_witness :
    (0 : ℝ) < 1 ∧
    Black76Base._d1 ⟨1, 1, 1, 0, 1⟩ =
      (Real.log ((1 : ℝ) / 1) + (1 : ℝ) ^ 2 * 1 / 2) / (1 * Real.sqrt 1) :=
  ⟨one_pos,
   (c6_b76_d1_d2_vega ⟨1, 1, 1, 0, 1⟩ one_pos one_pos one_pos one_pos).1⟩

/-- C9: measures are deterministic pure functions of the constructor
parameters: two constructions from identical parameters yield the same stored
fields (exactly the constructor arguments), the same measure values, and no
method call changes any stored field in either family. -/
theorem c9_purity_determinism (S K T r sigma q : ℝ) (p p' : BSParams)
    (pb : B76Params)
    (h : BlackScholesBase.init S K T r sigma q = Except.ok p)
    (h' : BlackScholesBase.init S K T r sigma q = Except.ok p') :
    p = p' ∧ p = ⟨S, K, T, r, sigma, q⟩ ∧
    (BlackScholesBase.gammaCall p).1 = (BlackScholesBase.gammaCall p').1 ∧
    (BlackScholesBase.vegaCall p).1 = (BlackScholesBase.vegaCall p').1 ∧
    (BlackScholesBase.gammaCall p).2 = p ∧
    (BlackScholesBase.dual_gammaCall p).2 = p ∧
    (BlackScholesBase.vegaCall p).2 = p ∧
    (BlackScholesBase.vannaCall p).2 = p ∧
    (BlackScholesBase.vommaCall p).2 = p ∧
    (BlackScholesBase.vetaCall p).2 = p ∧
    (BlackScholesBase.phiCall p).2 = p ∧
    (BlackScholesBase.speedCall p).2 = p ∧
    (BlackScholesBase.zommaCall p).2 = p ∧
    (BlackScholesBase.colorCall p).2 = p ∧
    (BlackScholesBase.ultimaCall p).2 = p ∧
    (Black76Base.gammaCall pb).2 = pb ∧
    (Black76Base.vegaCall pb).2 = pb := by
  have e1 := bsm_init_ok_inv S K T r sigma q p h
  have e2 := bsm_init_ok_inv S K T r sigma q p' h'
  subst e1
  subst e2
  exact ⟨rfl, rfl, rfl, rfl, rfl, rfl, rfl, rfl, rfl, rfl, rfl, rfl, rfl,
    rfl, rfl, rfl, rfl⟩

/-- C9 witness: purity and determinism at concrete parameters. -/
theorem c9_purity_determinism_witness :
    (BlackScholesBase.gammaCall ⟨1, 2, 3, 4, 5, 6⟩).2 = ⟨1, 2, 3, 4, 5, 6⟩ ∧
    (Black76Base.vegaCall ⟨1, 2, 3, 4, 5⟩).2 = ⟨1, 2, 3, 4, 5⟩ := by
  have hinit : BlackScholesBase.init 1 2 3 4 5 6 = Except.ok ⟨1, 2, 3, 4, 5, 6⟩ :=
    bsm_init_ok 1 2 3 4 5 6 (by norm_num) (by norm_num) (by norm_num)
      (by norm_num) (by norm_num)
  have hc := c9_purity_determinism 1 2 3 4 5 6 ⟨1, 2, 3, 4, 5, 6⟩
    ⟨1, 2, 3, 4, 5, 6⟩ ⟨1, 2, 3, 4, 5⟩ hinit hinit
  exact ⟨hc.2.2.2.2.1, hc.2.2.2.2.2.2.2.2.2.2.2.2.2.2.2.2⟩

/-- C4 counterexample: at S = K = T = 1, r = q = 0 and sigma = 0, evaluating
gamma raises the generic float division-by-zero error, which is not the
degenerate-input error the claim requires. -/
theorem c4_counterexample :
    BlackScholesBase.gammaE ⟨1, 1, 1, 0, 0, 0⟩ =
      Except.error PyError.zeroDivisionError ∧
    PyError.zeroDivisionError ≠ PyError.degenerateInputError := by
  have hd := bsm_d1E_degenerate ⟨1, 1, 1, 0, 0, 0⟩ zero_le_one (Or.inl rfl)
  exact ⟨(bsm_measures_err _ _ hd).2.1, by decide⟩

/-- C4 (amended): with sigma = 0 or T = 0 and otherwise valid parameters,
evaluating d1, d2 or any Greek that depends on them raises the generic
ZeroDivisionError of float division — deterministically the same error, but
never a named degenerate-input error and never a documented limiting value. -/
theorem c4_degenerate_raises_zero_division (p : BSParams)
    (hS : 0 < p.S) (hK : 0 < p.K) (hT : 0 ≤ p.T) (hsig : 0 ≤ p.sigma)
    (hq : 0 ≤ p.q) (h : p.sigma = 0 ∨ p.T = 0) :
    BlackScholesBase._d1E p = Except.error PyError.zeroDivisionError ∧
    BlackScholesBase._d2E p = Except.error PyError.zeroDivisionError ∧
    BlackScholesBase.gammaE p = Except.error PyError.zeroDivisionError ∧
    BlackScholesBase.dual_gammaE p = Except.error PyError.zeroDivisionError ∧
    BlackScholesBase.vegaE p = Except.error PyError.zeroDivisionError ∧
    BlackScholesBase.vannaE p = Except.error PyError.zeroDivisionError ∧
    BlackScholesBase.vommaE p = Except.error PyError.zeroDivisionError ∧
    BlackScholesBase.vetaE p = Except.error PyError.zeroDivisionError ∧
    BlackScholesBase.speedE p = Except.error PyError.zeroDivisionError ∧
    BlackScholesBase.zommaE p = Except.error PyError.zeroDivisionError ∧
    BlackScholesBase.colorE p = Except.error PyError.zeroDivisionError ∧
    BlackScholesBase.ultimaE p = Except.error PyError.zeroDivisionError := by
  have hd := bsm_d1E_degenerate p hT h
  exact ⟨hd, bsm_measures_err p PyError.zeroDivisionError hd⟩

/-- C4 witness: the degenerate evaluation at S = K = T = 1, sigma = 0. -/
theorem c4_degenerate_raises_zero_division_witness :
    BlackScholesBase._d1E ⟨1, 1, 1, 0, 0, 0⟩ =
      Except.error PyError.zeroDivisionError :=
  (c4_degenerate_raises_zero_division ⟨1, 1, 1, 0, 0, 0⟩ one_pos one_pos
    zero_le_one (le_refl 0) (le_refl 0) (Or.inl rfl)).1

/-- C10: with S = 0 or K = 0 and the other parameters valid, construction
succeeds (the check is value >= 0), yet d1, d2 and every Greek that reads
them fail to evaluate, so a validated instance is not evaluable. -/
theorem c10_valid_but_unevaluable (S K T r sigma q : ℝ)
    (hS : 0 ≤ S) (hK : 0 ≤ K) (hT : 0 < T) (hsig : 0 < sigma) (hq : 0 ≤ q)
    (h : S = 0 ∨ K = 0) :
    BlackScholesBase.init S K T r sigma q = Except.ok ⟨S, K, T, r, sigma, q⟩ ∧
    isErr (BlackScholesBase._d1E ⟨S, K, T, r, sigma, q⟩) = true ∧
    isErr (BlackScholesBase._d2E ⟨S, K, T, r, sigma, q⟩) = true ∧
    isErr (BlackScholesBase.gammaE ⟨S, K, T, r, sigma, q⟩) = true ∧
    isErr (BlackScholesBase.dual_gammaE ⟨S, K, T, r, sigma, q⟩) = true ∧
    isErr (BlackScholesBase.vegaE ⟨S, K, T, r, sigma, q⟩) = true ∧
    isErr (BlackScholesBase.vannaE ⟨S, K, T, r, sigma, q⟩) = true ∧
    isErr (BlackScholesBase.vommaE ⟨S, K, T, r, sigma, q⟩) = true ∧
    isErr (BlackScholesBase.vetaE ⟨S, K, T, r, sigma, q⟩) = true ∧
    isErr (BlackScholesBase.speedE ⟨S, K, T, r, sigma, q⟩) = true ∧
    isErr (BlackScholesBase.zommaE ⟨S, K, T, r, sigma, q⟩) = true ∧
    isErr (BlackScholesBase.colorE ⟨S, K, T, r, sigma, q⟩) = true ∧
    isErr (BlackScholesBase.ultimaE ⟨S, K, T, r, sigma, q⟩) = true := by
  have hiserr : isErr (BlackScholesBase._d1E ⟨S, K, T, r, sigma, q⟩) = true :=
    bsm_d1E_zero_S_or_K ⟨S, K, T, r, sigma, q⟩ hS hK hsig hT h
  refine ⟨bsm_init_ok S K T r sigma q hS hK hT.le hsig.le hq, hiserr, ?_⟩
  cases heq : BlackScholesBase._d1E ⟨S, K, T, r, sigma, q⟩ with
  | ok v =>
    rw [heq] at hiserr
    simp [isErr] at hiserr
  | error e =>
    have hm := bsm_measures_err ⟨S, K, T, r, sigma, q⟩ e heq
    exact ⟨hm.1 ▸ isErr_error e, hm.2.1 ▸ isErr_error e, hm.2.2.1 ▸ isErr_error e,
      hm.2.2.2.1 ▸ isErr_error e, hm.2.2.2.2.1 ▸ isErr_error e,
      hm.2.2.2.2.2.1 ▸ isErr_error e, hm.2.2.2.2.2.2.1 ▸ isErr_error e,
      hm.2.2.2.2.2.2.2.1 ▸ isErr_error e, hm.2.2.2.2.2.2.2.2.1 ▸ isErr_error e,
      hm.2.2.2.2.2.2.2.2.2.1 ▸ isErr_error e,
      hm.2.2.2.2.2.2.2.2.2.2 ▸ isErr_error e⟩

/-- C10 witness: S = 0 with the other parameters valid constructs
successfully but d1 does not evaluate. -/
theorem c10_valid_but_unevaluable_witness :
    BlackScholesBase.init 0 1 1 0 1 0 = Except.ok ⟨0, 1, 1, 0, 1, 0⟩ ∧
    isErr (BlackScholesBase._d1E ⟨0, 1, 1, 0, 1, 0⟩) = true := by
  have hc := c10_valid_but_unevaluable 0 1 1 0 1 0 (le_refl 0) zero_le_one
    one_pos one_pos (le_refl 0) (Or.inl rfl)
  exact ⟨hc.1, hc.2.1⟩
